import Mathlib

/-!
Verification development for the `fast-apis` sampler: a FastAPI app
(`src/main.py`) exposing REST, WebSocket echo, webhook, SSE, composite and
JSON-RPC endpoints, plus a minimal SOAP server (`src/soap_server.py`).
The endpoint handlers are shallowly embedded as pure Lean functions over a
JSON value type; Python exceptions raised inside a handler are modelled with
`Except`.
-/

/-- A JSON value, as produced by `request.json()` in the Python source.
Objects are modelled as association lists; Python dicts decoded from JSON
have unique keys, and key lookup returns the first match. -/
inductive Json where
  | null
  | bool (b : Bool)
  | num (n : Int)
  | str (s : String)
  | arr (xs : List Json)
  | obj (fields : List (String × Json))
deriving Repr

/-- Lookup of a key in a JSON object's field list: the Python expression
`data.get(key)` on a dict, returning `none` when the key is absent. -/
def jsonGet (fields : List (String × Json)) (key : String) : Option Json :=
  match fields with
  | [] => none
  | (k, v) :: rest => if k = key then some v else jsonGet rest key

/-- Whether a JSON value is an object (a Python dict after `request.json()`).
Only dicts have the `.get` attribute used by the rpc handler. -/
def Json.isObj : Json → Bool
  | .obj _ => true
  | _ => false

/-- Python exceptions that can escape the embedded handlers:
`json.JSONDecodeError` when the request body is not valid JSON, and
`AttributeError` when `.get` is called on a non-dict value. -/
inductive PyExn where
  | jsonDecodeError
  | attributeError
deriving Repr, DecidableEq

/-- `rpc_endpoint` from `src/main.py` lines 72-77.  The argument is the
request body after JSON parsing: `none` when `await request.json()` raises
(malformed body), `some j` when the body parsed to the JSON value `j`.

```python
data = await request.json()
if data.get("method") == "ping":
    return {"jsonrpc": "2.0", "result": "pong", "id": data.get("id")}
return {"jsonrpc": "2.0", "error": "Method not found", "id": data.get("id")}
```

`data.get` raises `AttributeError` when `data` is not a dict; a missing
`"id"` key makes `data.get("id")` return `None`, serialised as JSON null.
The Python comparison `data.get("method") == "ping"` holds exactly when the
value is the string `"ping"`; it is `False` for a missing key and for any
non-string value, which the match below encodes. -/
def rpc_endpoint (body : Option Json) : Except PyExn Json :=
  match body with
  | none => .error .jsonDecodeError
  | some data =>
    match data with
    | .obj fields =>
      match jsonGet fields "method" with
      | some (.str s) =>
        if s = "ping" then
          .ok (.obj [("jsonrpc", .str "2.0"), ("result", .str "pong"),
                     ("id", (jsonGet fields "id").getD .null)])
        else
          .ok (.obj [("jsonrpc", .str "2.0"), ("error", .str "Method not found"),
                     ("id", (jsonGet fields "id").getD .null)])
      | _ =>
        .ok (.obj [("jsonrpc", .str "2.0"), ("error", .str "Method not found"),
                   ("id", (jsonGet fields "id").getD .null)])
    | _ => .error .attributeError

/-- `webhook_listener` from `src/main.py` lines 29-33.  The argument is the
request body after JSON parsing, as for `rpc_endpoint`.  The `print` call is
a side effect with no influence on the response and is omitted.

```python
payload = await request.json()
print("Webhook received:", payload)
return {"status": "received", "data": payload}
``` -/
def webhook_listener (body : Option Json) : Except PyExn Json :=
  match body with
  | none => .error .jsonDecodeError
  | some payload => .ok (.obj [("status", .str "received"), ("data", payload)])

/-- `rest_example` from `src/main.py` lines 12-14: the constant response of
the REST endpoint. -/
def rest_example : Json :=
  .obj [("message", .str "Hello from REST API!")]

/-- `composite` from `src/main.py` lines 62-67: the constant response of the
composite aggregation endpoint. -/
def composite : Json :=
  .obj [("user", .obj [("id", .num 1), ("name", .str "Alice")]),
        ("orders", .arr [.obj [("id", .num 101), ("item", .str "Book")],
                         .obj [("id", .num 102), ("item", .str "Laptop")]])]

/-- `event_stream` from `src/main.py` lines 38-41: the generator yields the
chunk `"data: Server message {i}\n\n"` for `i` in `range(5)`; the
`asyncio.sleep(1)` between yields does not affect the chunk sequence. -/
def event_stream : List String :=
  (List.range 5).map (fun i => "data: Server message " ++ toString i ++ "\n\n")

/-- The response of `sse_endpoint` (`src/main.py` lines 43-45): a streaming
response with the given media type whose body is the concatenation of the
generator's chunks. -/
structure SseResponse where
  mediaType : String
  chunks : List String
deriving Repr, DecidableEq

/-- `sse_endpoint` from `src/main.py` lines 43-45:
`StreamingResponse(event_stream(), media_type="text/event-stream")`. -/
def sse_endpoint : SseResponse :=
  { mediaType := "text/event-stream", chunks := event_stream }

/-- One wire event on an accepted WebSocket session, seen from the server:
a received text frame or a sent text frame. -/
inductive WsEvent where
  | recv (payload : String)
  | send (payload : String)
deriving Repr, DecidableEq

/-- The body of the `websocket_endpoint` loop (`src/main.py` lines 19-24)
applied to one received frame: `await websocket.send_text(f"You said: {data}")`. -/
def ws_reply (data : String) : String :=
  "You said: " ++ data

/-- The wire trace of `websocket_endpoint` (`src/main.py` lines 19-24) on a
session over which the client sends the given list of text frames: each
iteration of the loop awaits one frame and sends exactly one reply before
awaiting the next frame. -/
def ws_trace : List String → List WsEvent
  | [] => []
  | d :: rest => .recv d :: .send (ws_reply d) :: ws_trace rest

/-- `SoapService.say_hello` from `src/soap_server.py` lines 84-87:
`return f"Hello {name}"`. -/
def say_hello (name : String) : String :=
  "Hello " ++ name

/-- Invoking a handler twice on the same input, for the idempotence claim:
the pair of the two observable results. -/
def invokeTwice {α β : Type} (f : α → β) (x : α) : β × β :=
  (f x, f x)

/-- Claim C1: a POST to `/rpc` whose JSON body is an object with `"method"`
equal to `"ping"` and an id value `v` returns exactly
`{"jsonrpc": "2.0", "result": "pong", "id": v}`. -/
theorem rpc_ping_returns_pong (fields : List (String × Json)) (v : Json)
    (hm : jsonGet fields "method" = some (.str "ping"))
    (hid : jsonGet fields "id" = some v) :
    rpc_endpoint (some (.obj fields)) =
      .ok (.obj [("jsonrpc", .str "2.0"), ("result", .str "pong"), ("id", v)]) := by
  simp [rpc_endpoint, hm, hid]

/-- Witness for C1: the concrete request `{"method": "ping", "id": 7}`. -/
theorem rpc_ping_returns_pong_witness :
    rpc_endpoint (some (.obj [("method", .str "ping"), ("id", .num 7)])) =
      .ok (.obj [("jsonrpc", .str "2.0"), ("result", .str "pong"),
                 ("id", .num 7)]) :=
  rpc_ping_returns_pong [("method", .str "ping"), ("id", .num 7)] (.num 7)
    rfl rfl

/-- Helper: whenever the request body is an object whose `"method"` value is
not the string `"ping"` (including when the key is absent), `rpc_endpoint`
returns the Method-not-found response with the request id echoed, or null
when absent. -/
theorem rpc_endpoint_not_ping (fields : List (String × Json))
    (hm : jsonGet fields "method" ≠ some (.str "ping")) :
    rpc_endpoint (some (.obj fields)) =
      .ok (.obj [("jsonrpc", .str "2.0"), ("error", .str "Method not found"),
                 ("id", (jsonGet fields "id").getD .null)]) := by
  cases h : jsonGet fields "method" with
  | none => simp [rpc_endpoint, h]
  | some v =>
    cases v with
    | null => simp [rpc_endpoint, h]
    | bool b => simp [rpc_endpoint, h]
    | num n => simp [rpc_endpoint, h]
    | arr xs => simp [rpc_endpoint, h]
    | obj fs => simp [rpc_endpoint, h]
    | str s =>
      have hs : ¬ s = "ping" := fun e => hm (by rw [h, e])
      simp [rpc_endpoint, h, hs]

/-- Claim C2: a POST to `/rpc` whose JSON body is an object in which
`"method"` is absent or is any value other than `"ping"` returns
`{"jsonrpc": "2.0", "error": "Method not found", "id": v}` where `v` is the
request's id if present and null otherwise. -/
theorem rpc_unknown_method_not_found (fields : List (String × Json))
    (hm : jsonGet fields "method" = none ∨
      ∃ w, jsonGet fields "method" = some w ∧ w ≠ Json.str "ping") :
    rpc_endpoint (some (.obj fields)) =
      .ok (.obj [("jsonrpc", .str "2.0"), ("error", .str "Method not found"),
                 ("id", (jsonGet fields "id").getD .null)]) := by
  apply rpc_endpoint_not_ping
  rcases hm with h | ⟨w, hw, hne⟩
  · simp [h]
  · rw [hw]
    intro e
    exact hne (Option.some.inj e)

/-- Witness for C2: the concrete request `{"method": 1, "id": "a"}`, whose
method value is not the string `"ping"`. -/
theorem rpc_unknown_method_not_found_witness :
    rpc_endpoint (some (.obj [("method", .num 1), ("id", .str "a")])) =
      .ok (.obj [("jsonrpc", .str "2.0"), ("error", .str "Method not found"),
                 ("id", .str "a")]) :=
  rpc_unknown_method_not_found [("method", .num 1), ("id", .str "a")]
    (Or.inr ⟨.num 1, rfl, nofun⟩)

/-- Counterexample for C3: the request `{"id": 1}` has no `"method"` member,
yet `rpc_endpoint` does not reject it with a decode-level error (an
exception, `.error`): it handles it as an unknown method, successfully
returning the Method-not-found JSON-RPC response. -/
theorem rpc_missing_method_no_decode_error :
    rpc_endpoint (some (.obj [("id", .num 1)])) =
      .ok (.obj [("jsonrpc", .str "2.0"), ("error", .str "Method not found"),
                 ("id", .num 1)]) ∧
    (rpc_endpoint (some (.obj [("id", .num 1)]))).isOk = true :=
  ⟨rfl, rfl⟩

/-- Amended C3: a JSON-RPC request in which the `"method"` member is absent
is not rejected by any decode step; the rpc handler itself treats it as an
unknown method and returns the ordinary Method-not-found response (with the
request's id echoed, or null when absent). -/
theorem rpc_missing_method_handled_as_unknown (fields : List (String × Json))
    (hm : jsonGet fields "method" = none) :
    rpc_endpoint (some (.obj fields)) =
      .ok (.obj [("jsonrpc", .str "2.0"), ("error", .str "Method not found"),
                 ("id", (jsonGet fields "id").getD .null)]) ∧
    (rpc_endpoint (some (.obj fields))).isOk = true := by
  have h := rpc_endpoint_not_ping fields (by simp [hm])
  exact ⟨h, by rw [h]; rfl⟩

/-- Witness for amended C3: the concrete request `{"id": true}`. -/
theorem rpc_missing_method_handled_as_unknown_witness :
    rpc_endpoint (some (.obj [("id", .bool true)])) =
      .ok (.obj [("jsonrpc", .str "2.0"), ("error", .str "Method not found"),
                 ("id", .bool true)]) ∧
    (rpc_endpoint (some (.obj [("id", .bool true)]))).isOk = true :=
  rpc_missing_method_handled_as_unknown [("id", .bool true)] rfl

/-- Counterexample for C4: a malformed (non-JSON) body POSTed to `/rpc` or
`/webhook`, and a non-object JSON body POSTed to `/rpc`, do not produce a
well-formed protocol-native error response: the handler raises an unhandled
Python exception (`json.JSONDecodeError` resp. `AttributeError`). -/
theorem malformed_body_no_native_error_response :
    rpc_endpoint none = .error .jsonDecodeError ∧
    (rpc_endpoint none).isOk = false ∧
    webhook_listener none = .error .jsonDecodeError ∧
    (webhook_listener none).isOk = false ∧
    rpc_endpoint (some (.arr [])) = .error .attributeError :=
  ⟨rfl, rfl, rfl, rfl, rfl⟩

/-- Amended C4: an inbound request with a malformed body does not get a
protocol-native error response from the code: a non-JSON body to `/rpc` or
`/webhook` makes `request.json()` raise, and a non-object JSON body to
`/rpc` makes `data.get` raise `AttributeError`; the unhandled exception
escapes the handler (the framework's generic 500 is the wire outcome). -/
theorem malformed_body_raises_exception (b : Option Json)
    (hb : b = none ∨ ∃ j, b = some j ∧ j.isObj = false) :
    (∃ e, rpc_endpoint b = .error e) ∧
    (b = none → webhook_listener b = .error .jsonDecodeError) := by
  rcases hb with h | ⟨j, hj, hobj⟩
  · subst h
    exact ⟨⟨.jsonDecodeError, rfl⟩, fun _ => rfl⟩
  · subst hj
    refine ⟨⟨.attributeError, ?_⟩, fun h => by cases h⟩
    cases j with
    | obj fs => simp [Json.isObj] at hobj
    | null => rfl
    | bool b => rfl
    | num n => rfl
    | str s => rfl
    | arr xs => rfl

/-- Witness for amended C4: the unparseable body. -/
theorem malformed_body_raises_exception_witness :
    (∃ e, rpc_endpoint none = .error e) ∧
    ((none : Option Json) = none → webhook_listener none = .error .jsonDecodeError) :=
  malformed_body_raises_exception none (Or.inl rfl)

/-- Claim C5: the SSE response has media type `text/event-stream` and every
chunk of its body is framed exactly as `"data: " ++ payload ++ "\n\n"`. -/
theorem sse_media_type_and_framing :
    sse_endpoint.mediaType = "text/event-stream" ∧
    ∀ c ∈ sse_endpoint.chunks, ∃ payload, c = "data: " ++ payload ++ "\n\n" := by
  refine ⟨rfl, fun c hc => ?_⟩
  have h5 : sse_endpoint.chunks =
      ["data: Server message 0\n\n", "data: Server message 1\n\n",
       "data: Server message 2\n\n", "data: Server message 3\n\n",
       "data: Server message 4\n\n"] := rfl
  rw [h5] at hc
  simp only [List.mem_cons, List.not_mem_nil, or_false] at hc
  rcases hc with rfl | rfl | rfl | rfl | rfl
  · exact ⟨"Server message 0", rfl⟩
  · exact ⟨"Server message 1", rfl⟩
  · exact ⟨"Server message 2", rfl⟩
  · exact ⟨"Server message 3", rfl⟩
  · exact ⟨"Server message 4", rfl⟩

/-- Claim C6: the SSE stream emits exactly five messages, with payloads
`Server message 0` through `Server message 4` in enqueue order, then
terminates; it never emits zero messages. -/
theorem sse_five_messages_in_order :
    sse_endpoint.chunks =
      ["data: Server message 0\n\n", "data: Server message 1\n\n",
       "data: Server message 2\n\n", "data: Server message 3\n\n",
       "data: Server message 4\n\n"] ∧
    sse_endpoint.chunks.length = 5 ∧ sse_endpoint.chunks ≠ [] := by
  refine ⟨rfl, rfl, fun h => ?_⟩
  exact absurd (congrArg List.length h) (by decide)

/-- Claim C7: on an accepted WebSocket session, each received text frame
`d` is answered by exactly one sent text frame `"You said: " ++ d`, sent
before the next frame is received: the wire trace is the concatenation, in
order, of one `recv`/`send` pair per frame. -/
theorem ws_echo_one_reply_per_frame (frames : List String) :
    ws_trace frames =
      frames.flatMap (fun d => [WsEvent.recv d, WsEvent.send ("You said: " ++ d)]) := by
  induction frames with
  | nil => rfl
  | cons d rest ih =>
    simp only [ws_trace, ws_reply, List.flatMap_cons]
    rw [ih]
    rfl

/-- Claim C8: the request/response handlers (REST, composite, RPC) are pure
functions of the request body, so invoking one twice on the same input
yields equal observable results. -/
theorem handlers_idempotent (b : Option Json) :
    (invokeTwice rpc_endpoint b).1 = (invokeTwice rpc_endpoint b).2 ∧
    (invokeTwice (fun _ : Unit => rest_example) ()).1 =
      (invokeTwice (fun _ : Unit => rest_example) ()).2 ∧
    (invokeTwice (fun _ : Unit => composite) ()).1 =
      (invokeTwice (fun _ : Unit => composite) ()).2 :=
  ⟨rfl, rfl, rfl⟩

/-- Claim C9: a POST to `/webhook` whose body parses as the JSON value `p`
returns `{"status": "received", "data": p}` with `p` echoed unchanged. -/
theorem webhook_echoes_payload (p : Json) :
    webhook_listener (some p) =
      .ok (.obj [("status", .str "received"), ("data", p)]) :=
  rfl

/-- Claim C10: for every Unicode string `name`, the SOAP operation
`say_hello` returns exactly `"Hello "` concatenated with `name`. -/
theorem say_hello_concat (name : String) :
    say_hello name = "Hello " ++ name :=
  rfl
